import Mathlib

/-
Verification of the gandi-ddns reconciliation engine (src/main.py).

The engine is embedded shallowly: the network is abstracted into oracles
that give, for each request, the outcome of the single HTTP round trip the
code would perform; everything else (record resolution, response
classification, the diff/PUT decision, notification messages, the
per-record control flow of `main`) is translated directly from the source.
-/

namespace GandiDdns

/-- One desired DNS record as parsed from the configuration
(src/main.py, dataclass `Record`, lines 64-68): a resource type, an owner
name, and an optional ordered list of values; `val = none` is the unset
state meaning "fill with the detected IP at resolution time". -/
structure Record where
  type : String
  name : String
  val : Option (List String)
  deriving DecidableEq

/-- The fields of a provider JSON response body that `main` inspects:
`rrset_name` and `code` are read with `dict.get` (absence allowed, giving
`None`), while `rrset_values` is read with a plain index, whose absence
would raise `KeyError` (src/main.py lines 241-244). -/
structure RespData where
  rrset_name : Option String
  code : Option Nat
  rrset_values : Option (List String)
  deriving DecidableEq

/-- The outcome of one HTTP round trip as observed inside `gandi_req`
(src/main.py lines 146-158): either the request succeeded and its body
parsed as JSON, or it raised `HTTPError` carrying an error body that is
JSON-decodable (`some`) or not (`none`). -/
inductive HttpOutcome where
  | ok (body : RespData)
  | httpError (body : Option RespData)
  deriving DecidableEq

/-- Embedding of the result shaping of `gandi_req` (src/main.py lines
146-158): a successful response is parsed and returned; on `HTTPError` the
error body is returned as the error dict when it is JSON-decodable, and
otherwise the function returns `None`. -/
def gandi_req : HttpOutcome → Option RespData
  | HttpOutcome.ok b => some b
  | HttpOutcome.httpError b => b

/-- Embedding of `get_local_ip` (src/main.py lines 168-180), parametrised
by the interface-bound address and the address reported by the public echo
service. Returns the IP the function returns together with the list of
notification messages it sends (one mismatch message when the two IPs
differ, none otherwise). -/
def get_local_ip (local_ip net_ip : String) : String × List String :=
  if local_ip ≠ net_ip then
    (local_ip, ["IP mismatch: " ++ local_ip ++ " vs. " ++ net_ip])
  else
    (local_ip, [])

/-- Python truthiness of the `val` field: `None` and the empty list are
falsy, a non-empty list is truthy (the `if not record.val` test at
src/main.py line 228). -/
def truthyVal : Option (List String) → Bool
  | none => false
  | some [] => false
  | some (_ :: _) => true

/-- First resolution step (src/main.py lines 228-229): if `record.val` is
falsy (unset or the empty list), replace it with the one-element list
holding the local IP. -/
def fillVal (local_ip : String) (r : Record) : Record :=
  if truthyVal r.val then r else { r with val := some [local_ip] }

/-- Second resolution step (src/main.py lines 231-233): for a PTR record,
override the name with the local IP followed by `.in-addr.arpa.` and the
values with the one-element list holding the domain followed by a dot. -/
def resolvePTR (local_ip domain : String) (r : Record) : Record :=
  if r.type = "PTR" then
    { r with name := local_ip ++ ".in-addr.arpa.", val := some [domain ++ "."] }
  else r

/-- Full per-record resolution (src/main.py lines 228-233): fill unset
values, then apply the PTR override. -/
def resolveRecord (local_ip domain : String) (r : Record) : Record :=
  resolvePTR local_ip domain (fillVal local_ip r)

/-- The values of a record after resolution, as the list the rest of the
processing uses. -/
def resolvedVals (local_ip domain : String) (r : Record) : List String :=
  ((resolveRecord local_ip domain r).val).getD []

/-- The correct reverse-DNS in-addr.arpa owner name for an IPv4 address
given as its four octets, per the specification: the octets reversed,
joined with dots, followed by `.in-addr.arpa.`. This is the specification
expectation, stated separately so it can be compared with what
`resolveRecord` actually produces. -/
def reverseDnsName (octets : List String) : String :=
  String.intercalate "." octets.reverse ++ ".in-addr.arpa."

/-- Rendering of an optional value list inside log and notification
messages (`None` for the absent case, the list of values otherwise). -/
def reprOptVals : Option (List String) → String
  | none => "None"
  | some l => "[" ++ String.intercalate ", " l ++ "]"

/-- Rendering of a record inside log and notification messages, carrying
its type, name and values. -/
def reprRecord (r : Record) : String :=
  "Record(type=" ++ r.type ++ ", name=" ++ r.name ++ ", val=" ++ reprOptVals r.val ++ ")"

/-- The notification message sent after a PUT (src/main.py lines 266-268):
it names the domain, the record, the old live values and the new desired
values. -/
def notifMsg (domain : String) (res : Record) (recVal : Option (List String))
    (vals : List String) : String :=
  "updating " ++ domain ++ " " ++ reprRecord res ++ " from " ++ reprOptVals recVal
    ++ " to " ++ reprOptVals (some vals)

/-- Classification of a live-record response by the chain of tests at
src/main.py lines 241-251: the response name matches the record (live
values extracted; a matching response lacking `rrset_values` would raise
`KeyError`), or the response carries the not-found code 404, or anything
else (unexpected). -/
inductive Classified where
  | found (vals : List String)
  | absent
  | unexpected (resp : RespData)
  | keyError
  deriving DecidableEq

/-- Embedding of the response classification (src/main.py lines 241-251). -/
def classifyResp (recname : String) (rd : RespData) : Classified :=
  if rd.rrset_name = some recname then
    match rd.rrset_values with
    | some v => Classified.found v
    | none => Classified.keyError
  else if rd.code = some 404 then Classified.absent
  else Classified.unexpected rd

/-- The live value list a successful classification yields: `some v` for an
existing record, `none` for a not-yet-existing one; no value for the
unexpected and `KeyError` cases. This is the `rec_val` variable of `main`
(src/main.py lines 237-245). -/
def liveValOf : Classified → Option (Option (List String))
  | Classified.found v => some (some v)
  | Classified.absent => some none
  | Classified.unexpected _ => none
  | Classified.keyError => none

/-- The body of the PUT request issued by `main` (src/main.py lines
255-264). -/
structure PutBody where
  rrset_name : String
  rrset_type : String
  rrset_ttl : Nat
  rrset_values : List String
  deriving DecidableEq

/-- Outcome of processing one resolved record: the run aborted (a failed
`assert` or a `KeyError`, which propagate out of `main`), the record was
skipped with the FAIL log carrying the record and the response, the values
already matched so nothing was done, or a PUT was issued (carrying its
body, the printed result of the PUT round trip, and the notification
message sent afterwards). -/
inductive StepResult where
  | aborted
  | skipped (rec : Record) (resp : RespData)
  | noChange
  | put (body : PutBody) (putResult : Option RespData) (notification : String)
  deriving DecidableEq

/-- The action the loop body takes on one classified response (src/main.py
lines 241-268): a `KeyError` propagates (aborts), an unexpected response is
skipped with the FAIL log, and otherwise the live values `rec_val` (`some`
for an existing record, `none` for an absent one) are compared to the
desired values; a PUT of the desired name, type, values and ttl 1200 plus
the notification happen exactly when they differ. -/
def actOn (domain : String) (res : Record) (vals : List String)
    (putResult : Option RespData) : Classified → StepResult
  | Classified.keyError => StepResult.aborted
  | Classified.unexpected rd => StepResult.skipped res rd
  | Classified.found v =>
    if some v = some vals then StepResult.noChange
    else StepResult.put ⟨res.name, res.type, 1200, vals⟩ putResult
      (notifMsg domain res (some v) vals)
  | Classified.absent =>
    if (none : Option (List String)) = some vals then StepResult.noChange
    else StepResult.put ⟨res.name, res.type, 1200, vals⟩ putResult
      (notifMsg domain res none vals)

/-- Embedding of the fetch/classify/compare/act part of the per-record loop
body (src/main.py lines 237-268), after resolution: `readResp` is what
`gandi_req` returned for the GET and `putResult` what it would return for
the PUT. `assert record_data` fails on `none`; otherwise the response is
classified and acted on. -/
def processResolved (domain : String) (res : Record) (vals : List String) :
    Option RespData → Option RespData → StepResult
  | none, _ => StepResult.aborted
  | some rd, putResult => actOn domain res vals putResult (classifyResp res.name rd)

/-- Whether a step outcome aborts the run (an uncaught exception). -/
def isAborted : StepResult → Bool
  | StepResult.aborted => true
  | _ => false

/-- The notification messages a step outcome emits. -/
def notificationsOf : StepResult → List String
  | StepResult.put _ _ n => [n]
  | _ => []

/-- The value list carried by the PUT a step outcome issued, if any. -/
def putValuesOf : StepResult → Option (List String)
  | StepResult.put b _ _ => some b.rrset_values
  | _ => none

/-- One full iteration of the per-record loop (src/main.py lines 227-268):
resolve the record, then fetch, classify, compare and act. `readOut` and
`putOut` are the HTTP outcomes of the GET and of the PUT the code would
issue for this record. Returns the resolved record with the step outcome. -/
def stepRecord (local_ip domain : String) (r : Record)
    (readOut putOut : HttpOutcome) : Record × StepResult :=
  let res := resolveRecord local_ip domain r
  (res, processResolved domain res (res.val.getD []) (gandi_req readOut) (gandi_req putOut))

/-- The per-domain record loop (src/main.py lines 227-268): records are
processed in order; an aborting outcome (uncaught exception) stops the
whole run, anything else continues with the remaining records. The oracles
give the HTTP outcome of the GET and the PUT for a record, keyed by its
resolved name and type. Returns the processed outcomes and whether the run
aborted. -/
def runRecords (local_ip domain : String)
    (ro po : String → String → HttpOutcome) :
    List Record → List (Record × StepResult) × Bool
  | [] => ([], false)
  | r :: rs =>
    let out := stepRecord local_ip domain r
      (ro (resolveRecord local_ip domain r).name (resolveRecord local_ip domain r).type)
      (po (resolveRecord local_ip domain r).name (resolveRecord local_ip domain r).type)
    if isAborted out.2 then ([out], true)
    else ((out :: (runRecords local_ip domain ro po rs).1),
          (runRecords local_ip domain ro po rs).2)

/-- The domain loop of `main` (src/main.py lines 222-268): domains are
processed in order, each running its record loop; an abort inside a
domain's records stops the whole run. -/
def runDomains (local_ip : String)
    (ro po : String → String → String → HttpOutcome) :
    List (String × List Record) → List (String × List (Record × StepResult)) × Bool
  | [] => ([], false)
  | (d, rs) :: ds =>
    let out := runRecords local_ip d (ro d) (po d) rs
    if out.2 then ([(d, out.1)], true)
    else (((d, out.1) :: (runDomains local_ip ro po ds).1),
          (runDomains local_ip ro po ds).2)

/-! Concrete inputs used by witnesses and counterexamples. -/

/-- A desired apex A record with unset values. -/
def exRecordA : Record := Record.mk "A" "@" none

/-- A second desired record, used to observe whether processing continues
past an earlier record. -/
def exRecordMail : Record := Record.mk "A" "mail" none

/-- A provider whose every response is an HTTP error with a body that is
not JSON-decodable. -/
def exUndecodable : String → String → String → HttpOutcome :=
  fun _ _ _ => HttpOutcome.httpError none

/-- A not-found response body: no record name, code 404. -/
def exResp404 : RespData := RespData.mk none (some 404) none

/-- A live response for the apex record holding a stale address. -/
def exRespFound : RespData := RespData.mk (some "@") none (some ["9.9.9.9"])

/-- An unexpected response: name of some other record, code 500. -/
def exRespWeird : RespData := RespData.mk (some "other") (some 500) none

/-! Shared helper lemmas. -/

/-- A classification can only be `keyError` when the response name matched
the record but the response carries no `rrset_values` field. -/
theorem classifyResp_eq_keyError (recname : String) (rd : RespData)
    (h : classifyResp recname rd = Classified.keyError) :
    rd.rrset_name = some recname ∧ rd.rrset_values = none := by
  unfold classifyResp at h
  by_cases h1 : rd.rrset_name = some recname
  · rw [if_pos h1] at h
    cases hv : rd.rrset_values with
    | none => exact ⟨h1, rfl⟩
    | some v => rw [hv] at h; exact absurd h (by simp)
  · rw [if_neg h1] at h
    by_cases h2 : rd.code = some 404 <;> simp [h2] at h

/-- A response whose name does not match and whose code is not 404 is
classified as unexpected. -/
theorem classifyResp_eq_unexpected (recname : String) (rd : RespData)
    (hname : rd.rrset_name ≠ some recname) (hcode : rd.code ≠ some 404) :
    classifyResp recname rd = Classified.unexpected rd := by
  unfold classifyResp
  rw [if_neg hname, if_neg hcode]

/-- Characterisation of the compare-and-act step on a successfully
classified response: the outcome is `noChange` when the live values equal
the desired values and otherwise a PUT of the desired name, type, values
and ttl 1200, followed by the notification naming the old and new values. -/
theorem processResolved_classified (domain : String) (res : Record) (vals : List String)
    (rd : RespData) (putRes : Option RespData) (recVal : Option (List String))
    (hclass : liveValOf (classifyResp res.name rd) = some recVal) :
    processResolved domain res vals (some rd) putRes =
      (if recVal = some vals then StepResult.noChange
       else StepResult.put (PutBody.mk res.name res.type 1200 vals) putRes
         (notifMsg domain res recVal vals)) := by
  simp only [processResolved]
  cases h : classifyResp res.name rd with
  | found v =>
    simp only [liveValOf, h, Option.some.injEq] at hclass
    subst hclass
    rfl
  | absent =>
    simp only [liveValOf, h, Option.some.injEq] at hclass
    subst hclass
    rfl
  | unexpected rd2 => simp [liveValOf, h] at hclass
  | keyError => simp [liveValOf, h] at hclass

/-- Any PUT the compare-and-act step issues carries exactly the desired
value list it was given. -/
theorem putValuesOf_processResolved (domain : String) (res : Record) (vals : List String)
    (rr pr : Option RespData) :
    putValuesOf (processResolved domain res vals rr pr) = none
    ∨ putValuesOf (processResolved domain res vals rr pr) = some vals := by
  cases rr with
  | none => left; rfl
  | some rd =>
    simp only [processResolved]
    cases h : classifyResp res.name rd with
    | found v =>
      simp only [actOn]
      by_cases hv : some v = some vals
      · rw [if_pos hv]; left; rfl
      · rw [if_neg hv]; right; rfl
    | absent =>
      simp only [actOn]
      rw [if_neg (by simp)]
      right; rfl
    | unexpected rd2 => left; rfl
    | keyError => left; rfl

/-- The compare-and-act step never aborts on a response that decoded to a
JSON payload, provided a payload matching the record name carries its
`rrset_values` field (otherwise the `KeyError` branch aborts). -/
theorem processResolved_not_aborted (domain : String) (res : Record) (vals : List String)
    (rd : RespData) (pr : Option RespData)
    (hwf : rd.rrset_name = some res.name → rd.rrset_values ≠ none) :
    isAborted (processResolved domain res vals (some rd) pr) = false := by
  simp only [processResolved]
  cases h : classifyResp res.name rd with
  | found v =>
    simp only [actOn]
    by_cases hv : some v = some vals
    · rw [if_pos hv]; rfl
    · rw [if_neg hv]; rfl
  | absent => simp only [actOn]; rw [if_neg (by simp)]; rfl
  | unexpected rd2 => rfl
  | keyError =>
    obtain ⟨h1, h2⟩ := classifyResp_eq_keyError res.name rd h
    exact absurd h2 (hwf h1)

/-- After resolution, a record's values are a defined, non-empty list. -/
theorem resolveRecord_val_nonempty (l d : String) (r : Record) :
    (resolveRecord l d r).val = some (resolvedVals l d r) ∧ resolvedVals l d r ≠ [] := by
  obtain ⟨ty, nm, v⟩ := r
  unfold resolvedVals resolveRecord fillVal resolvePTR truthyVal
  rcases v with _ | ⟨_ | ⟨a, as⟩⟩ <;> by_cases hty : ty = "PTR" <;> simp [hty]

/-! Claim theorems. -/

/-- Claim C1 (code evidence): for a PTR record resolved with local IP
5.6.7.8 and domain example.com, the values do become [example.com.] as
claimed, but the resolved name is 5.6.7.8.in-addr.arpa. with the octets in
their original order, not the correct reverse-DNS form
8.7.6.5.in-addr.arpa. that the claim requires. -/
theorem c1_ptr_name_keeps_octet_order :
    (resolveRecord "5.6.7.8" "example.com" (Record.mk "PTR" "@" none)).name
        = "5.6.7.8.in-addr.arpa."
    ∧ reverseDnsName ["5", "6", "7", "8"] = "8.7.6.5.in-addr.arpa."
    ∧ (resolveRecord "5.6.7.8" "example.com" (Record.mk "PTR" "@" none)).name
        ≠ reverseDnsName ["5", "6", "7", "8"]
    ∧ (resolveRecord "5.6.7.8" "example.com" (Record.mk "PTR" "@" none)).val
        = some ["example.com."] := by
  exact ⟨by decide, by decide, by decide, by decide⟩

/-- Claim C2 (counterexample): when the provider read for the first record
fails with an error body that is not JSON-decodable, the client yields no
payload, the assertion on the response fails, and the whole run aborts:
the second record and the second domain are never processed, refuting the
claim that every such error is contained at per-record granularity. -/
theorem c2_nonjson_read_error_aborts_run :
    (runDomains "1.2.3.4" exUndecodable exUndecodable
      [("example.com", [exRecordA, exRecordMail]), ("other.org", [exRecordA])]).2 = true
    ∧ (runDomains "1.2.3.4" exUndecodable exUndecodable
      [("example.com", [exRecordA, exRecordMail]), ("other.org", [exRecordA])]).1 =
        [("example.com", [(Record.mk "A" "@" (some ["1.2.3.4"]), StepResult.aborted)])] := by
  exact ⟨by decide, by decide⟩

/-- Claim C2 (amended): when the provider read for a record yields a JSON
payload (and a payload matching the record name carries its value field),
the record's processing never aborts the run, whatever the outcome of the
record's own PUT round trip: the run continues with the remaining records
exactly as it would after this one. -/
theorem c2_json_errors_handled_per_record (l d : String)
    (ro po : String → String → HttpOutcome) (r : Record) (rs : List Record) (rd : RespData)
    (hresp : gandi_req (ro (resolveRecord l d r).name (resolveRecord l d r).type) = some rd)
    (hwf : rd.rrset_name = some (resolveRecord l d r).name → rd.rrset_values ≠ none) :
    runRecords l d ro po (r :: rs) =
      ((stepRecord l d r (ro (resolveRecord l d r).name (resolveRecord l d r).type)
          (po (resolveRecord l d r).name (resolveRecord l d r).type))
        :: (runRecords l d ro po rs).1,
       (runRecords l d ro po rs).2) := by
  have hna : isAborted (stepRecord l d r
      (ro (resolveRecord l d r).name (resolveRecord l d r).type)
      (po (resolveRecord l d r).name (resolveRecord l d r).type)).2 = false := by
    simp only [stepRecord]
    rw [hresp]
    exact processResolved_not_aborted _ _ _ _ _ hwf
  simp only [runRecords, hna]
  simp

/-- Claim C2 witness: a concrete run of one record whose read returns a
JSON 404 body and whose PUT fails with an undecodable body completes
without aborting. -/
theorem c2_json_errors_handled_per_record_witness :
    runRecords "1.2.3.4" "example.com" (fun _ _ => HttpOutcome.ok exResp404)
        (fun _ _ => HttpOutcome.httpError none) [exRecordA] =
      ((stepRecord "1.2.3.4" "example.com" exRecordA (HttpOutcome.ok exResp404)
          (HttpOutcome.httpError none))
        :: (runRecords "1.2.3.4" "example.com" (fun _ _ => HttpOutcome.ok exResp404)
            (fun _ _ => HttpOutcome.httpError none) []).1,
       (runRecords "1.2.3.4" "example.com" (fun _ _ => HttpOutcome.ok exResp404)
          (fun _ _ => HttpOutcome.httpError none) []).2) :=
  c2_json_errors_handled_per_record "1.2.3.4" "example.com"
    (fun _ _ => HttpOutcome.ok exResp404) (fun _ _ => HttpOutcome.httpError none)
    exRecordA [] exResp404 rfl (by decide)

/-- Claim C3: for a record whose live state was successfully classified
(live values extracted, or the not-found code seen), a PUT is issued
exactly when the live value list is not element-for-element equal, in
order, to the desired list; the PUT carries the desired name, type, values
and ttl 1200, and when the lists are equal nothing is done. -/
theorem c3_put_iff_values_differ (domain : String) (res : Record) (vals : List String)
    (rd : RespData) (putRes : Option RespData) (recVal : Option (List String))
    (hclass : liveValOf (classifyResp res.name rd) = some recVal) :
    processResolved domain res vals (some rd) putRes =
      (if recVal = some vals then StepResult.noChange
       else StepResult.put (PutBody.mk res.name res.type 1200 vals) putRes
         (notifMsg domain res recVal vals)) :=
  processResolved_classified domain res vals rd putRes recVal hclass

/-- Claim C3 witness: a concrete record whose live values 9.9.9.9 differ
from the desired 1.2.3.4 gets exactly the PUT of the desired values with
ttl 1200. -/
theorem c3_put_iff_values_differ_witness :
    processResolved "example.com" (Record.mk "A" "@" (some ["1.2.3.4"])) ["1.2.3.4"]
        (some exRespFound) none =
      StepResult.put (PutBody.mk "@" "A" 1200 ["1.2.3.4"]) none
        (notifMsg "example.com" (Record.mk "A" "@" (some ["1.2.3.4"]))
          (some ["9.9.9.9"]) ["1.2.3.4"]) := by
  have h := c3_put_iff_values_differ "example.com" (Record.mk "A" "@" (some ["1.2.3.4"]))
      ["1.2.3.4"] exRespFound none (some ["9.9.9.9"]) (by decide)
  rw [h, if_neg (by decide)]

/-- Claim C4 (counterexample): a record that needs creating (live 404) and
whose PUT round trip fails with an undecodable error body still gets its
notification: the message is emitted even though the write failed,
refuting the claim that a notification happens exactly on a successful
write. -/
theorem c4_notification_despite_failed_put :
    (stepRecord "1.2.3.4" "example.com" exRecordA (HttpOutcome.ok exResp404)
        (HttpOutcome.httpError none)).2 =
      StepResult.put (PutBody.mk "@" "A" 1200 ["1.2.3.4"]) none
        (notifMsg "example.com" (Record.mk "A" "@" (some ["1.2.3.4"])) none ["1.2.3.4"])
    ∧ notificationsOf (stepRecord "1.2.3.4" "example.com" exRecordA
        (HttpOutcome.ok exResp404) (HttpOutcome.httpError none)).2 ≠ [] := by
  exact ⟨by decide, by decide⟩

/-- Claim C4 (amended): for a record whose live state was successfully
classified, a notification is emitted exactly when a PUT is issued (the
live and desired value lists differ), regardless of whether that PUT
succeeds or fails, and the message names the domain, the record, the old
values and the new values. -/
theorem c4_notification_iff_put_issued (domain : String) (res : Record) (vals : List String)
    (rd : RespData) (putRes : Option RespData) (recVal : Option (List String))
    (hclass : liveValOf (classifyResp res.name rd) = some recVal) :
    notificationsOf (processResolved domain res vals (some rd) putRes) =
      (if recVal = some vals then [] else [notifMsg domain res recVal vals]) := by
  rw [processResolved_classified domain res vals rd putRes recVal hclass]
  by_cases hv : recVal = some vals
  · rw [if_pos hv, if_pos hv]; rfl
  · rw [if_neg hv, if_neg hv]; rfl

/-- Claim C4 witness: the concrete stale record gets exactly one
notification naming the domain, record, old values and new values, here
with a PUT whose round trip yields no payload. -/
theorem c4_notification_iff_put_issued_witness :
    notificationsOf (processResolved "example.com" (Record.mk "A" "@" (some ["1.2.3.4"]))
        ["1.2.3.4"] (some exRespFound) none) =
      [notifMsg "example.com" (Record.mk "A" "@" (some ["1.2.3.4"]))
        (some ["9.9.9.9"]) ["1.2.3.4"]] := by
  have h := c4_notification_iff_put_issued "example.com"
      (Record.mk "A" "@" (some ["1.2.3.4"])) ["1.2.3.4"] exRespFound none
      (some ["9.9.9.9"]) (by decide)
  rw [h, if_neg (by decide)]

/-- Claim C5: a fetched live response whose name does not match the
record's resolved name and which does not carry code 404 makes the engine
skip the record: the outcome carries the record and the response (the FAIL
log), no PUT is issued, and the remaining records are processed exactly as
they would have been. -/
theorem c5_unexpected_response_skips_record (l d : String)
    (ro po : String → String → HttpOutcome) (r : Record) (rs : List Record) (rd : RespData)
    (hresp : gandi_req (ro (resolveRecord l d r).name (resolveRecord l d r).type) = some rd)
    (hname : rd.rrset_name ≠ some (resolveRecord l d r).name)
    (hcode : rd.code ≠ some 404) :
    runRecords l d ro po (r :: rs) =
      ((resolveRecord l d r, StepResult.skipped (resolveRecord l d r) rd)
        :: (runRecords l d ro po rs).1,
       (runRecords l d ro po rs).2) := by
  have hstep : stepRecord l d r (ro (resolveRecord l d r).name (resolveRecord l d r).type)
      (po (resolveRecord l d r).name (resolveRecord l d r).type) =
      (resolveRecord l d r, StepResult.skipped (resolveRecord l d r) rd) := by
    simp only [stepRecord]
    rw [hresp]
    simp only [processResolved]
    rw [classifyResp_eq_unexpected _ _ hname hcode]
    rfl
  simp only [runRecords, hstep]
  simp [isAborted]

/-- Claim C5 witness: a concrete unexpected response (name of another
record, code 500) makes the one-record run end with that record skipped,
carrying the record and the response, and without aborting. -/
theorem c5_unexpected_response_skips_record_witness :
    runRecords "1.2.3.4" "example.com" (fun _ _ => HttpOutcome.ok exRespWeird)
        (fun _ _ => HttpOutcome.httpError none) [exRecordA] =
      ((resolveRecord "1.2.3.4" "example.com" exRecordA,
        StepResult.skipped (resolveRecord "1.2.3.4" "example.com" exRecordA) exRespWeird)
        :: (runRecords "1.2.3.4" "example.com" (fun _ _ => HttpOutcome.ok exRespWeird)
            (fun _ _ => HttpOutcome.httpError none) []).1,
       (runRecords "1.2.3.4" "example.com" (fun _ _ => HttpOutcome.ok exRespWeird)
          (fun _ _ => HttpOutcome.httpError none) []).2) :=
  c5_unexpected_response_skips_record "1.2.3.4" "example.com"
    (fun _ _ => HttpOutcome.ok exRespWeird) (fun _ _ => HttpOutcome.httpError none)
    exRecordA [] exRespWeird rfl (by decide) (by decide)

/-- Claim C6: IP detection returns the local interface address in every
case; when local and public addresses differ exactly one mismatch
notification is sent and the run continues, when they are equal none is
sent; and the address substituted into an unresolved (non-PTR) record is
always the local one. -/
theorem c6_ip_mismatch_notified_local_wins (l n d : String) (r : Record) :
    (get_local_ip l n).1 = l
    ∧ (l ≠ n → ((get_local_ip l n).2).length = 1)
    ∧ (l = n → (get_local_ip l n).2 = [])
    ∧ (truthyVal r.val = false → r.type ≠ "PTR" →
        (resolveRecord (get_local_ip l n).1 d r).val = some [l]) := by
  have h1 : (get_local_ip l n).1 = l := by
    unfold get_local_ip; split <;> rfl
  refine ⟨h1, ?_, ?_, ?_⟩
  · intro h; simp [get_local_ip, h]
  · intro h; simp [get_local_ip, h]
  · intro hv hty
    rw [h1]
    unfold resolveRecord fillVal resolvePTR
    rw [hv]
    simp [hty]

/-- Claim C6 witness: with local 1.2.3.4 and public 5.6.7.8 the function
returns the local address, sends exactly one notification, and the apex A
record is filled with the local address. -/
theorem c6_ip_mismatch_notified_local_wins_witness :
    (get_local_ip "1.2.3.4" "5.6.7.8").1 = "1.2.3.4"
    ∧ ((get_local_ip "1.2.3.4" "5.6.7.8").2).length = 1
    ∧ (resolveRecord (get_local_ip "1.2.3.4" "5.6.7.8").1 "example.com" exRecordA).val
        = some ["1.2.3.4"] := by
  have h := c6_ip_mismatch_notified_local_wins "1.2.3.4" "5.6.7.8" "example.com" exRecordA
  exact ⟨h.1, h.2.1 (by decide), h.2.2.2 (by decide) (by decide)⟩

/-- Claim C7: a non-PTR record whose values are unset at the start of its
processing has, after resolution, exactly the one-element value list
holding the local IP. -/
theorem c7_unset_values_filled_with_local_ip (l d ty nm : String) (h : ty ≠ "PTR") :
    (resolveRecord l d (Record.mk ty nm none)).val = some [l] := by
  simp [resolveRecord, fillVal, resolvePTR, truthyVal, h]

/-- Claim C7 witness: the apex A record with unset values resolves to the
local IP. -/
theorem c7_unset_values_filled_with_local_ip_witness :
    (resolveRecord "1.2.3.4" "example.com" (Record.mk "A" "@" none)).val = some ["1.2.3.4"] :=
  c7_unset_values_filled_with_local_ip "1.2.3.4" "example.com" "A" "@" (by decide)

/-- Claim C8: after resolution every record's value field is a defined
non-empty list, and the rest of the record's processing preserves it: any
PUT issued for the record carries exactly that non-empty list. -/
theorem c8_resolved_values_nonempty (l d : String) (r : Record)
    (readOut putOut : HttpOutcome) :
    (resolveRecord l d r).val = some (resolvedVals l d r)
    ∧ resolvedVals l d r ≠ []
    ∧ (putValuesOf (stepRecord l d r readOut putOut).2 = none
       ∨ putValuesOf (stepRecord l d r readOut putOut).2 = some (resolvedVals l d r)) := by
  refine ⟨(resolveRecord_val_nonempty l d r).1, (resolveRecord_val_nonempty l d r).2, ?_⟩
  have h := putValuesOf_processResolved d (resolveRecord l d r)
      ((resolveRecord l d r).val.getD []) (gandi_req readOut) (gandi_req putOut)
  simpa [stepRecord, resolvedVals] using h

/-- Claim C9: the PTR override is unconditional: whatever name and values a
PTR record arrives with, resolution replaces them with the form derived
from the local IP and the domain. -/
theorem c9_ptr_override_unconditional (l d nm : String) (v : Option (List String)) :
    resolveRecord l d (Record.mk "PTR" nm v) =
      Record.mk "PTR" (l ++ ".in-addr.arpa.") (some [d ++ "."]) := by
  cases v with
  | none => simp [resolveRecord, fillVal, resolvePTR, truthyVal]
  | some l2 => cases l2 <;> simp [resolveRecord, fillVal, resolvePTR, truthyVal]

/-- Claim C10: a non-PTR record whose values are the empty list is treated
exactly like an unset one: resolution replaces the empty list with the
one-element list holding the local IP. -/
theorem c10_empty_values_filled_with_local_ip (l d ty nm : String) (h : ty ≠ "PTR") :
    (resolveRecord l d (Record.mk ty nm (some []))).val = some [l] := by
  simp [resolveRecord, fillVal, resolvePTR, truthyVal, h]

/-- Claim C10 witness: an A record carrying an explicitly empty value list
resolves to the local IP. -/
theorem c10_empty_values_filled_with_local_ip_witness :
    (resolveRecord "1.2.3.4" "example.com" (Record.mk "A" "@" (some []))).val
      = some ["1.2.3.4"] :=
  c10_empty_values_filled_with_local_ip "1.2.3.4" "example.com" "A" "@" (by decide)

end GandiDdns
